import Mathlib

/-!
Verification of the directory-search core of the open-directory Alfred
workflow (src/main.rs and its duplicated sibling src/directory.rs).

The pipeline embedded here: `Directory.calculate_matching_score` wraps an
external fuzzy matcher and inverts its sign; `sort_and_filter_matching_directories`
stable-sorts candidates ascending by that score and keeps only the strictly
negative ones; `to_items` maps survivors to launcher items and substitutes a
single fallback item when nothing survives; `search_items` models the search
boundary in `search_for_directories` (trimming and interception of blank
patterns before ranking).
-/

namespace OpenDirectory

/-- Candidate entry: a display name and the opaque path handed back on
selection (struct `Directory` in main.rs, lines 16-20; identical copy in
directory.rs, lines 8-12). -/
structure Directory where
  name : String
  path : String
deriving DecidableEq

/-- Launcher output record: `powerpack::Item` restricted to the three fields
the program sets — title (`Item::new`), optional subtitle and optional
argument payload. -/
structure Item where
  title : String
  subtitle : Option String
  arg : Option String
deriving DecidableEq

/-- Builder `Item::new`: a title with no subtitle and no argument. -/
def Item.new (title : String) : Item :=
  { title := title, subtitle := none, arg := none }

/-- Modelled from the spec: smart-case character comparison of the external
fuzzy matcher — a lowercase pattern character matches either case of the
candidate character, otherwise the characters must agree exactly. -/
def charMatch (c p : Char) : Bool :=
  p == c || (p.isLower && c.toLower == p)

/-- Modelled from the spec: greedy ordered-subsequence test — every pattern
character is located, in order, among the candidate characters under
`charMatch`. -/
def isSubseqOf : List Char → List Char → Bool
  | [], _ => true
  | _ :: _, [] => false
  | p :: ps, c :: cs =>
    if charMatch c p then isSubseqOf ps cs else isSubseqOf (p :: ps) cs

/-- Modelled from the spec: goodness of a greedy subsequence match — 16 per
matched character plus a bonus of 8 when the match is consecutive with the
previous one, so consecutive matches score higher than scattered ones. -/
def scoreAux : List Char → List Char → Bool → Int
  | [], _, _ => 0
  | _ :: _, [], _ => 0
  | p :: ps, c :: cs, prev =>
    if charMatch c p then (if prev then 24 else 16) + scoreAux ps cs true
    else scoreAux (p :: ps) cs false

/-- Modelled from the spec: the underlying fuzzy-subsequence matcher
(`SkimMatcherV2::fuzzy_match` of the external fuzzy_matcher crate, which is
not part of this repository). Per the spec it is deterministic, locates the
query as an ordered subsequence within the name (smart case), exposes a
distinguishable no-match outcome (`none`), and an empty pattern trivially
matches with the neutral goodness 0. -/
def fuzzy_match (choice pattern : String) : Option Int :=
  if pattern.data.isEmpty then some 0
  else if isSubseqOf pattern.data choice.data then
    some (scoreAux pattern.data choice.data false)
  else none

/-- `Directory::calculate_matching_score` (main.rs lines 42-49): the matcher
result, with 0 substituted for a missing match, negated. -/
def Directory.calculate_matching_score (d : Directory) (query : String) : Int :=
  -((fuzzy_match d.name query).getD 0)

/-- `Directory::to_item` (main.rs lines 36-40): title is the entry name,
subtitle describes the action (`format!("execute → {} {}", ...)`), the
argument is the path verbatim. -/
def Directory.to_item (d : Directory) (binary_to_execute : String) : Item :=
  { title := d.name
    subtitle := some ("execute → " ++ binary_to_execute ++ " " ++ d.path)
    arg := some d.path }

/-- Stable insertion step of the ascending-by-key sort: an element is placed
before the first element whose key is at least its own, so an element earlier
in the input stays before later elements with an equal key. -/
def insertByKey {α : Type} (key : α → Int) (x : α) : List α → List α
  | [] => [x]
  | y :: ys => if key x ≤ key y then x :: y :: ys else y :: insertByKey key x ys

/-- Stable ascending sort by an integer key, modelling itertools
`sorted_by_key` (documented as a stable sort). -/
def sorted_by_key {α : Type} (key : α → Int) : List α → List α
  | [] => []
  | x :: xs => insertByKey key x (sorted_by_key key xs)

/-- `sort_and_filter_matching_directories` (main.rs lines 53-60): stable-sort
ascending by matching score, then keep only directories whose score is
strictly negative. -/
def sort_and_filter_matching_directories
    (directories : List Directory) (query : String) : List Directory :=
  (sorted_by_key (fun d => d.calculate_matching_score query) directories).filter
    (fun d => d.calculate_matching_score query < 0)

/-- `default` (main.rs lines 154-161): the fallback item — for an empty query
it asks for a search pattern, otherwise it reports that nothing was found. -/
def default (query : String) : Item :=
  if query.isEmpty then Item.new "please add a search pattern"
  else Item.new ("nothing found for " ++ query ++ ", try to reformulate your search")

/-- `to_items` (main.rs lines 62-72): map the ranked directories to items;
when that list is empty, emit the single fallback item instead. -/
def to_items (directories : List Directory) (query : String)
    (binary_to_execute : String) : List Item :=
  let matched_directories :=
    (sort_and_filter_matching_directories directories query).map
      (fun d => d.to_item binary_to_execute)
  if matched_directories.isEmpty then [default query] else matched_directories

/-- Modelled from the spec: Rust's `str::trim` at the search boundary —
surrounding whitespace is removed from the pattern before ranking. -/
def trim (s : String) : String :=
  ⟨((s.data.dropWhile (fun c => c.isWhitespace)).reverse.dropWhile
      (fun c => c.isWhitespace)).reverse⟩

/-- Where the search boundary sends a pattern: straight to the fallback, or
to the ranking pipeline with a trimmed query. -/
inductive Route where
  | fallback : Route
  | rank : String → Route
deriving DecidableEq

/-- Branching of `search_for_directories` (main.rs lines 145-149): the
pattern is trimmed; a missing or blank pattern is routed to the fallback,
anything else to ranking. -/
def route (pattern : Option String) : Route :=
  match pattern.map (fun p => trim p) with
  | none => Route.fallback
  | some p => if p = "" then Route.fallback else Route.rank p

/-- Item production of `search_for_directories` (main.rs lines 145-149):
the fallback branch emits `default("")`, the other branch runs `to_items`
on the trimmed pattern. -/
def search_items (directories : List Directory) (pattern : Option String)
    (binary_to_execute : String) : List Item :=
  match route pattern with
  | Route.fallback => [default ""]
  | Route.rank p => to_items directories p binary_to_execute

namespace DirectoryRs

/-- Copy of `Directory::calculate_matching_score` in directory.rs, lines
34-41 (textually identical to the main.rs version). -/
def calculate_matching_score (d : Directory) (query : String) : Int :=
  -((fuzzy_match d.name query).getD 0)

/-- Copy of `Directory::to_item` in directory.rs, lines 28-32. -/
def to_item (d : Directory) (binary_to_execute : String) : Item :=
  { title := d.name
    subtitle := some ("execute → " ++ binary_to_execute ++ " " ++ d.path)
    arg := some d.path }

/-- Copy of `Directory::sort_and_filter_matching_directories` in
directory.rs, lines 42-49. -/
def sort_and_filter_matching_directories
    (directories : List Directory) (query : String) : List Directory :=
  (sorted_by_key (fun d => calculate_matching_score d query) directories).filter
    (fun d => calculate_matching_score d query < 0)

/-- Copy `Directory::transform_to_items` in directory.rs, lines 50-60; its
fallback calls `crate::default`, the same `default` as main.rs. -/
def transform_to_items (directories : List Directory) (query : String)
    (binary_to_execute : String) : List Item :=
  let matched_directories :=
    (sort_and_filter_matching_directories directories query).map
      (fun d => to_item d binary_to_execute)
  if matched_directories.isEmpty then [default query] else matched_directories

end DirectoryRs

theorem insertByKey_perm {α : Type} (key : α → Int) (x : α) :
    ∀ l : List α, List.Perm (insertByKey key x l) (x :: l)
  | [] => List.Perm.refl _
  | y :: ys => by
    simp only [insertByKey]
    split
    · exact List.Perm.refl _
    · exact ((insertByKey_perm key x ys).cons y).trans (List.Perm.swap x y ys)

theorem sorted_by_key_perm {α : Type} (key : α → Int) :
    ∀ l : List α, List.Perm (sorted_by_key key l) l
  | [] => List.Perm.refl _
  | x :: xs => by
    simp only [sorted_by_key]
    exact (insertByKey_perm key x _).trans ((sorted_by_key_perm key xs).cons x)

theorem insertByKey_pairwise {α : Type} (key : α → Int) (x : α) :
    ∀ l : List α, l.Pairwise (fun a b => key a ≤ key b) →
      (insertByKey key x l).Pairwise (fun a b => key a ≤ key b)
  | [], _ => by simp [insertByKey]
  | y :: ys, h => by
    rw [List.pairwise_cons] at h
    simp only [insertByKey]
    split
    · rename_i hxy
      refine List.pairwise_cons.mpr ⟨fun z hz => ?_, List.pairwise_cons.mpr h⟩
      rcases List.mem_cons.mp hz with rfl | hz
      · exact hxy
      · exact le_trans hxy (h.1 z hz)
    · rename_i hxy
      refine List.pairwise_cons.mpr ⟨fun z hz => ?_, insertByKey_pairwise key x ys h.2⟩
      rcases List.mem_cons.mp ((insertByKey_perm key x ys).mem_iff.mp hz) with rfl | hz
      · exact le_of_not_le hxy
      · exact h.1 z hz

theorem sorted_by_key_pairwise {α : Type} (key : α → Int) :
    ∀ l : List α, (sorted_by_key key l).Pairwise (fun a b => key a ≤ key b)
  | [] => List.Pairwise.nil
  | x :: xs => by
    simp only [sorted_by_key]
    exact insertByKey_pairwise key x _ (sorted_by_key_pairwise key xs)

theorem filter_insertByKey {α : Type} (key : α → Int) (s : Int) (x : α) :
    ∀ l : List α,
      (insertByKey key x l).filter (fun a => key a = s)
        = (x :: l).filter (fun a => key a = s)
  | [] => rfl
  | y :: ys => by
    simp only [insertByKey]
    split
    · rfl
    · rename_i hxy
      by_cases hx : key x = s
      · have hy : ¬ key y = s := fun hy => hxy (by rw [hx, hy])
        simp [List.filter_cons, filter_insertByKey key s x ys, hx, hy]
      · by_cases hy : key y = s <;>
          simp [List.filter_cons, filter_insertByKey key s x ys, hx, hy]

theorem filter_sorted_by_key {α : Type} (key : α → Int) (s : Int) :
    ∀ l : List α,
      (sorted_by_key key l).filter (fun a => key a = s)
        = l.filter (fun a => key a = s)
  | [] => rfl
  | x :: xs => by
    simp only [sorted_by_key]
    rw [filter_insertByKey key s x (sorted_by_key key xs)]
    simp [List.filter_cons, filter_sorted_by_key key s xs]

theorem score_neg_isSubseqOf (d : Directory) (q : String)
    (h : d.calculate_matching_score q < 0) :
    isSubseqOf q.data d.name.data = true := by
  unfold Directory.calculate_matching_score fuzzy_match at h
  split at h
  · simp at h
  · split at h
    · assumption
    · simp at h

/-- C1: `to_items` (the Presenter `present`) never returns an empty list of
items: whenever ranking keeps no directory, the output is exactly the single
synthetic fallback item `default query`, so the public contract never yields
an empty action list. -/
theorem to_items_nonempty (dirs : List Directory) (query binary : String) :
    to_items dirs query binary ≠ []
    ∧ (sort_and_filter_matching_directories dirs query = [] →
        to_items dirs query binary = [default query]) := by
  constructor
  · simp only [to_items]
    split
    · simp
    · rename_i h
      simpa using h
  · intro hs
    simp [to_items, hs]

/-- C2: every directory kept by `sort_and_filter_matching_directories` is
drawn from the input, its score is strictly negative after sign inversion,
and its name admits the query as an ordered subsequence — no false
positives. -/
theorem sort_and_filter_no_false_positives (dirs : List Directory)
    (query : String) (d : Directory)
    (hd : d ∈ sort_and_filter_matching_directories dirs query) :
    d ∈ dirs ∧ d.calculate_matching_score query < 0
      ∧ isSubseqOf query.data d.name.data = true := by
  unfold sort_and_filter_matching_directories at hd
  have h := List.mem_filter.mp hd
  have hscore : d.calculate_matching_score query < 0 := by simpa using h.2
  exact ⟨(sorted_by_key_perm (fun d => d.calculate_matching_score query)
      dirs).mem_iff.mp h.1, hscore, score_neg_isSubseqOf d query hscore⟩

/-- C3: the ranked output is sorted ascending by score, and for every score
value the kept entries carrying that (necessarily negative) score appear in
their original input order — the sort is stable, so repeated runs over the
same input are reproducible (the pipeline is a pure function). -/
theorem sort_and_filter_sorted_stable (dirs : List Directory) (query : String) :
    (sort_and_filter_matching_directories dirs query).Pairwise
      (fun a b => a.calculate_matching_score query ≤ b.calculate_matching_score query)
    ∧ ∀ s : Int, s < 0 →
        (sort_and_filter_matching_directories dirs query).filter
            (fun d => d.calculate_matching_score query = s)
          = dirs.filter (fun d => d.calculate_matching_score query = s) := by
  constructor
  · exact List.Pairwise.sublist (List.filter_sublist _)
      (sorted_by_key_pairwise (fun d => d.calculate_matching_score query) dirs)
  · intro s hs
    unfold sort_and_filter_matching_directories
    rw [List.filter_filter]
    have hpt : ∀ a : Directory,
        (decide (a.calculate_matching_score query = s)
          && decide (a.calculate_matching_score query < 0))
        = decide (a.calculate_matching_score query = s) := by
      intro a
      by_cases h : a.calculate_matching_score query = s
      · simp [h, hs]
      · simp [h]
    simp only [hpt]
    exact filter_sorted_by_key (fun d => d.calculate_matching_score query) s dirs

/-- C4: `calculate_matching_score` is the sign-inverted matcher goodness, so
ascending score order is descending match quality; a missing match yields
the neutral score 0, which the Ranker filter excludes from every output. -/
theorem calculate_matching_score_inverts (d : Directory) (query : String) :
    (∀ g : Int, fuzzy_match d.name query = some g →
        d.calculate_matching_score query = -g)
    ∧ (fuzzy_match d.name query = none → d.calculate_matching_score query = 0)
    ∧ (d.calculate_matching_score query = 0 →
        ∀ dirs : List Directory, d ∉ sort_and_filter_matching_directories dirs query)
    ∧ (∀ (e : Directory) (g k : Int), fuzzy_match d.name query = some g →
        fuzzy_match e.name query = some k →
        (k ≤ g ↔ d.calculate_matching_score query ≤ e.calculate_matching_score query)) := by
  refine ⟨?_, ?_, ?_, ?_⟩
  · intro g hg
    unfold Directory.calculate_matching_score
    rw [hg]
    rfl
  · intro hg
    unfold Directory.calculate_matching_score
    rw [hg]
    rfl
  · intro h0 dirs hmem
    unfold sort_and_filter_matching_directories at hmem
    have h2 : d.calculate_matching_score query < 0 := by
      simpa using (List.mem_filter.mp hmem).2
    rw [h0] at h2
    exact absurd h2 (lt_irrefl 0)
  · intro e g k hg hk
    unfold Directory.calculate_matching_score
    rw [hg, hk]
    simp only [Option.getD_some]
    omega

/-- C5 counterexample: the empty query does not reach the Ranker — the
search boundary of `search_for_directories` routes a pattern that trims to
the empty string straight to the fallback, while a non-matching query such
as "z" is routed to ranking; and for the whitespace pattern " " the emitted
items differ from what ranking the literal query would produce, so the
Presenter's fallback branch is not the only logic distinguishing the two
cases. -/
theorem empty_query_interception_counterexample :
    route (some "") = Route.fallback
    ∧ route (some "z") = Route.rank "z"
    ∧ search_items [⟨"ab", "p"⟩] (some " ") "open"
        ≠ to_items [⟨"ab", "p"⟩] " " "open" :=
  ⟨by decide, by decide, by decide⟩

/-- C5 (amended): the search boundary intercepts blank queries before the
Ranker — `route` sends a pattern to the fallback exactly when it trims to
the empty string, and only patterns surviving the trim are handed to the
ranking pipeline, inside which the fallback of `to_items` is the only
branching that distinguishes no-match outcomes. -/
theorem search_route_branching (dirs : List Directory) (binary query : String) :
    (route (some query) = Route.fallback ↔ trim query = "")
    ∧ (trim query ≠ "" →
        search_items dirs (some query) binary = to_items dirs (trim query) binary)
    ∧ route none = Route.fallback := by
  refine ⟨?_, ?_, rfl⟩
  · by_cases h : trim query = "" <;> simp [route, h]
  · intro h
    have hr : route (some query) = Route.rank (trim query) := by simp [route, h]
    simp [search_items, hr]

/-- C6: whenever ranking keeps nothing, `to_items` yields exactly one
fallback item carrying no subtitle and no payload; its title asks the user
to supply a search pattern when the query is empty and otherwise reports
that nothing was found for the query with a suggestion to reformulate. -/
theorem fallback_item_shape (dirs : List Directory) (query binary : String)
    (h : sort_and_filter_matching_directories dirs query = []) :
    to_items dirs query binary = [default query]
    ∧ (default query).subtitle = none
    ∧ (default query).arg = none
    ∧ (query = "" → (default query).title = "please add a search pattern")
    ∧ (query ≠ "" → (default query).title
        = "nothing found for " ++ query ++ ", try to reformulate your search") := by
  refine ⟨by simp [to_items, h], ?_, ?_, ?_, ?_⟩
  · by_cases hq : query.isEmpty <;> simp [default, Item.new, hq]
  · by_cases hq : query.isEmpty <;> simp [default, Item.new, hq]
  · intro hq
    simp [default, Item.new, String.isEmpty_iff, hq]
  · intro hq
    simp [default, Item.new, String.isEmpty_iff, hq]

/-- C7: for a non-empty ranked sequence, `to_items` maps each directory to
exactly one item whose title is the entry name, whose subtitle combines the
action label with the entry path, and whose argument payload is the path
verbatim. -/
theorem present_maps_entries (dirs : List Directory) (query binary : String)
    (h : sort_and_filter_matching_directories dirs query ≠ []) :
    to_items dirs query binary
      = (sort_and_filter_matching_directories dirs query).map
          (fun d => d.to_item binary)
    ∧ ∀ d : Directory,
        (d.to_item binary).title = d.name
        ∧ (d.to_item binary).subtitle
            = some ("execute → " ++ binary ++ " " ++ d.path)
        ∧ (d.to_item binary).arg = some d.path := by
  refine ⟨?_, fun d => ⟨rfl, rfl, rfl⟩⟩
  have hne : ¬ ((sort_and_filter_matching_directories dirs query).map
      (fun d => d.to_item binary)).isEmpty = true := by
    simp [h]
  simp only [to_items, if_neg hne]

/-- C8: for a query that is not an ordered subsequence of the entry name,
the empty query ranks at least as well: both produce the neutral score 0,
so after sign inversion the empty query's score is less than or equal to
the non-matching query's score. -/
theorem empty_query_baseline (name path query : String)
    (h : isSubseqOf query.data name.data = false) :
    Directory.calculate_matching_score ⟨name, path⟩ ""
      ≤ Directory.calculate_matching_score ⟨name, path⟩ query := by
  have hq : query.data.isEmpty = false := by
    cases hd : query.data with
    | nil =>
      rw [hd] at h
      simp [isSubseqOf] at h
    | cons a as => rfl
  have h0 : fuzzy_match name "" = some 0 := by
    unfold fuzzy_match
    rw [if_pos]
    decide
  have h1 : fuzzy_match name query = none := by
    unfold fuzzy_match
    rw [if_neg (by simp [hq]), if_neg (by simp [h])]
  simp only [Directory.calculate_matching_score]
  rw [h0, h1]
  simp

/-- C9: the duplicated implementation in directory.rs is extensionally equal
to the live one in main.rs — scoring, item construction, ranking and
presentation agree on every input (the two sources are textually identical
code). -/
theorem directory_rs_equivalent (dirs : List Directory) (query binary : String)
    (d : Directory) :
    DirectoryRs.calculate_matching_score d query
        = Directory.calculate_matching_score d query
    ∧ DirectoryRs.to_item d binary = Directory.to_item d binary
    ∧ DirectoryRs.sort_and_filter_matching_directories dirs query
        = sort_and_filter_matching_directories dirs query
    ∧ DirectoryRs.transform_to_items dirs query binary
        = to_items dirs query binary :=
  ⟨rfl, rfl, rfl, rfl⟩

/-- C10: the search boundary trims the pattern of surrounding whitespace; a
missing, empty, or whitespace-only pattern is intercepted before the Ranker
and the emitted output is exactly the single fallback item instructing the
user to add a search pattern, while any other pattern is ranked after
trimming. -/
theorem search_intercepts_blank (dirs : List Directory) (binary query : String) :
    search_items dirs none binary = [default ""]
    ∧ (trim query = "" → search_items dirs (some query) binary = [default ""])
    ∧ (trim query ≠ "" →
        search_items dirs (some query) binary = to_items dirs (trim query) binary)
    ∧ (default "").title = "please add a search pattern"
    ∧ (default "").subtitle = none
    ∧ (default "").arg = none := by
  refine ⟨rfl, ?_, ?_, by decide, by decide, by decide⟩
  · intro h
    simp [search_items, route, h]
  · intro h
    have hr : route (some query) = Route.rank (trim query) := by simp [route, h]
    simp [search_items, hr]

/-- Witness for C1 at a concrete input: with no candidates and the empty
query the pipeline emits exactly the single fallback item. -/
theorem to_items_nonempty_witness :
    to_items [] "" "open" = [default ""] :=
  (to_items_nonempty [] "" "open").2 (by decide)

/-- Witness for C2: the kept directory "dashboard" for query "d" is drawn
from the input, scores strictly negatively, and "d" is an ordered
subsequence of its name. -/
theorem sort_and_filter_no_false_positives_witness :
    (⟨"dashboard", "p"⟩ : Directory) ∈ [(⟨"dashboard", "p"⟩ : Directory)]
    ∧ Directory.calculate_matching_score ⟨"dashboard", "p"⟩ "d" < 0
    ∧ isSubseqOf "d".data "dashboard".data = true :=
  sort_and_filter_no_false_positives [⟨"dashboard", "p"⟩] "d"
    ⟨"dashboard", "p"⟩ (by decide)

/-- Witness for C3: with query "o" both "dashboard" and "bookmarks" score
-16, and the stability equation at score -16 keeps their input order. -/
theorem sort_and_filter_sorted_stable_witness :
    (sort_and_filter_matching_directories
        [⟨"dashboard", "p"⟩, ⟨"bookmarks", "q"⟩] "o").filter
        (fun d => d.calculate_matching_score "o" = -16)
      = [(⟨"dashboard", "p"⟩ : Directory), ⟨"bookmarks", "q"⟩].filter
        (fun d => d.calculate_matching_score "o" = -16) :=
  (sort_and_filter_sorted_stable [⟨"dashboard", "p"⟩, ⟨"bookmarks", "q"⟩] "o").2
    (-16) (by decide)

/-- Witness for C4: for "Dashboard" and query "d" the matcher goodness is 16
and the reported score is its negation. -/
theorem calculate_matching_score_inverts_witness :
    Directory.calculate_matching_score ⟨"Dashboard", "p"⟩ "d" = -16 :=
  (calculate_matching_score_inverts ⟨"Dashboard", "p"⟩ "d").1 16 (by decide)

/-- Witness for C5 (amended): the pattern " d " trims to "d" and is handed
to the ranking pipeline. -/
theorem search_route_branching_witness :
    search_items [⟨"Dashboard", "p"⟩] (some " d ") "open"
      = to_items [⟨"Dashboard", "p"⟩] "d" "open" :=
  (search_route_branching [⟨"Dashboard", "p"⟩] "open" " d ").2.1 (by decide)

/-- Witness for C6: for the single candidate "Dashboard" and query "z"
nothing is kept, and the one fallback item reports "nothing found for z". -/
theorem fallback_item_shape_witness :
    to_items [⟨"Dashboard", "http://www.test.blub"⟩] "z" "open" = [default "z"]
    ∧ (default "z").title = "nothing found for z, try to reformulate your search" := by
  have h := fallback_item_shape [⟨"Dashboard", "http://www.test.blub"⟩] "z" "open"
    (by decide)
  refine ⟨h.1, ?_⟩
  rw [h.2.2.2.2 (by decide)]
  decide

/-- Witness for C7: the single match "Dashboard" for query "d" is presented
as exactly the mapped item list. -/
theorem present_maps_entries_witness :
    to_items [⟨"Dashboard", "p"⟩] "d" "open"
      = (sort_and_filter_matching_directories [⟨"Dashboard", "p"⟩] "d").map
          (fun d => d.to_item "open") :=
  (present_maps_entries [⟨"Dashboard", "p"⟩] "d" "open" (by decide)).1

/-- Witness for C8: "z" is not a subsequence of "Dashboard", and the empty
query's score for that entry ranks at least as well. -/
theorem empty_query_baseline_witness :
    Directory.calculate_matching_score ⟨"Dashboard", "p"⟩ ""
      ≤ Directory.calculate_matching_score ⟨"Dashboard", "p"⟩ "z" :=
  empty_query_baseline "Dashboard" "p" "z" (by decide)

/-- Witness for C10: the whitespace-only pattern is intercepted and produces
exactly the single fallback item. -/
theorem search_intercepts_blank_witness :
    search_items [⟨"Dashboard", "p"⟩] (some "   ") "open" = [default ""] :=
  (search_intercepts_blank [⟨"Dashboard", "p"⟩] "open" "   ").2.1 (by decide)

end OpenDirectory
